import Mathlib

/-!
Shallow embedding of `badchart.py`, a Streamlit page that renders a "bad"
and a "good" panel for one of five chart types over a loaded CSV dataset.

The embedding models:
  * the dataframe (header plus rows of cells) and column access,
  * dataset acquisition (upload, bundled sample fallback, halt),
  * the per-mode panel pairs and their error behaviour,
  * the good line-chart transform (to_numeric coercion, dropna, astype,
    sort by Category then Year),
  * the map-mode colour assignment (`category_to_color` over an MD5 hash,
    the fallback colour, the `df    [    Color    ]` column write),
  * the mean-based map midpoint and view state,
  * the indentation structure of the Map Chart section of the script.
-/

/-- A dataframe cell: a number, a string, a missing value (NaN), or a
list value such as the RGBA colour lists stored by the map panel. -/
inductive Cell where
  | num (q : Rat)
  | str (s : String)
  | na
  | colorVal (c : List Nat)
deriving DecidableEq

/-- A pandas dataframe: a header of column names and rows of cells. -/
structure DataFrame where
  header : List String
  rows : List (List Cell)
deriving DecidableEq

/-- Well-formedness: every row has exactly one cell per column. -/
def DataFrame.Wf (df : DataFrame) : Prop :=
  ∀ r ∈ df.rows, r.length = df.header.length

instance (df : DataFrame) : Decidable df.Wf := by
  unfold DataFrame.Wf; infer_instance

/-- Python `name in df.columns`. -/
def hasCol (df : DataFrame) (name : String) : Bool :=
  decide (name ∈ df.header)

/-- Index of a column in the header, if present. -/
def colIdx (df : DataFrame) (name : String) : Option Nat :=
  df.header.findIdx? (fun h => h = name)

/-- The cells of a named column (`df    [    name    ]`), if the column exists. -/
def getCol (df : DataFrame) (name : String) : Option (List Cell) :=
  (colIdx df name).map (fun i => df.rows.map (fun r => r.getD i Cell.na))

/-! ## MD5 (model of Python `hashlib.md5`)

Byte strings are `List Nat` with entries below 256; 32-bit words are `Nat`
taken modulo `2 ^ 32`. -/

/-- Left-rotate a 32-bit word by `s` bits. -/
def rotl32 (x s : Nat) : Nat :=
  ((x <<< s) % 4294967296) ||| (x >>> (32 - s))

/-- The 64 MD5 sine-derived constants (RFC 1321 table T). -/
def md5K : List Nat :=
  [0xd76aa478, 0xe8c7b756, 0x242070db, 0xc1bdceee,
   0xf57c0faf, 0x4787c62a, 0xa8304613, 0xfd469501,
   0x698098d8, 0x8b44f7af, 0xffff5bb1, 0x895cd7be,
   0x6b901122, 0xfd987193, 0xa679438e, 0x49b40821,
   0xf61e2562, 0xc040b340, 0x265e5a51, 0xe9b6c7aa,
   0xd62f105d, 0x02441453, 0xd8a1e681, 0xe7d3fbc8,
   0x21e1cde6, 0xc33707d6, 0xf4d50d87, 0x455a14ed,
   0xa9e3e905, 0xfcefa3f8, 0x676f02d9, 0x8d2a4c8a,
   0xfffa3942, 0x8771f681, 0x6d9d6122, 0xfde5380c,
   0xa4beea44, 0x4bdecfa9, 0xf6bb4b60, 0xbebfbc70,
   0x289b7ec6, 0xeaa127fa, 0xd4ef3085, 0x04881d05,
   0xd9d4d039, 0xe6db99e5, 0x1fa27cf8, 0xc4ac5665,
   0xf4292244, 0x432aff97, 0xab9423a7, 0xfc93a039,
   0x655b59c3, 0x8f0ccc92, 0xffeff47d, 0x85845dd1,
   0x6fa87e4f, 0xfe2ce6e0, 0xa3014314, 0x4e0811a1,
   0xf7537e82, 0xbd3af235, 0x2ad7d2bb, 0xeb86d391]

/-- The 64 MD5 per-round shift amounts. -/
def md5S : List Nat :=
  [7, 12, 17, 22, 7, 12, 17, 22, 7, 12, 17, 22, 7, 12, 17, 22,
   5, 9, 14, 20, 5, 9, 14, 20, 5, 9, 14, 20, 5, 9, 14, 20,
   4, 11, 16, 23, 4, 11, 16, 23, 4, 11, 16, 23, 4, 11, 16, 23,
   6, 10, 15, 21, 6, 10, 15, 21, 6, 10, 15, 21, 6, 10, 15, 21]

/-- MD5 padding: append `0x80`, zero bytes up to 56 mod 64, then the
bit length as eight little-endian bytes. -/
def md5Pad (msg : List Nat) : List Nat :=
  let bitLen := 8 * msg.length
  let z := (119 - msg.length % 64) % 64
  msg ++ [0x80] ++ List.replicate z 0 ++
    (List.range 8).map (fun i => (bitLen >>> (8 * i)) % 256)

/-- One of the 64 MD5 rounds, acting on the state `(a, b, c, d)`. -/
def md5Round (M : Nat → Nat) (st : Nat × Nat × Nat × Nat) (i : Nat) :
    Nat × Nat × Nat × Nat :=
  let (a, b, c, d) := st
  let fg : Nat × Nat :=
    if i < 16 then ((b &&& c) ||| ((b ^^^ 4294967295) &&& d), i)
    else if i < 32 then ((d &&& b) ||| ((d ^^^ 4294967295) &&& c), (5 * i + 1) % 16)
    else if i < 48 then (b ^^^ c ^^^ d, (3 * i + 5) % 16)
    else (c ^^^ (b ||| (d ^^^ 4294967295)), (7 * i) % 16)
  let f2 := (fg.1 + a + md5K.getD i 0 + M fg.2) % 4294967296
  (d, (b + rotl32 f2 (md5S.getD i 0)) % 4294967296, b, c)

/-- Process one 64-byte chunk. -/
def md5ProcessChunk (st : Nat × Nat × Nat × Nat) (chunk : List Nat) :
    Nat × Nat × Nat × Nat :=
  let M := fun j => chunk.getD (4 * j) 0 + 256 * chunk.getD (4 * j + 1) 0 +
    65536 * chunk.getD (4 * j + 2) 0 + 16777216 * chunk.getD (4 * j + 3) 0
  let r := (List.range 64).foldl (md5Round M) st
  ((st.1 + r.1) % 4294967296, (st.2.1 + r.2.1) % 4294967296,
   (st.2.2.1 + r.2.2.1) % 4294967296, (st.2.2.2 + r.2.2.2) % 4294967296)

/-- MD5 over a byte string, as the four 32-bit state words. -/
def md5Core (msg : List Nat) : Nat × Nat × Nat × Nat :=
  let padded := md5Pad msg
  (List.range (padded.length / 64)).foldl
    (fun st i => md5ProcessChunk st ((padded.drop (64 * i)).take 64))
    (0x67452301, 0xefcdab89, 0x98badcfe, 0x10325476)

/-- The four little-endian bytes of a 32-bit word. -/
def wordLEBytes (x : Nat) : List Nat :=
  [x % 256, (x >>> 8) % 256, (x >>> 16) % 256, (x >>> 24) % 256]

/-- The 16-byte MD5 digest of a byte string. -/
def md5Bytes (msg : List Nat) : List Nat :=
  let r := md5Core msg
  wordLEBytes r.1 ++ wordLEBytes r.2.1 ++ wordLEBytes r.2.2.1 ++ wordLEBytes r.2.2.2

/-- The lowercase hex character of a digit value. -/
def hexDigitChar (n : Nat) : Char :=
  Nat.digitChar n

/-- The two lowercase hex characters of a byte. -/
def byteHexChars (b : Nat) : List Char :=
  [hexDigitChar (b / 16), hexDigitChar (b % 16)]

/-- Python `hashlib.md5(m).hexdigest()`, as a character list. -/
def md5HexDigest (msg : List Nat) : List Char :=
  (md5Bytes msg).flatMap byteHexChars

/-- UTF-8 encoding of one character, as bytes. -/
def utf8EncodeCharNat (c : Char) : List Nat :=
  let n := c.toNat
  if n < 128 then [n]
  else if n < 2048 then [192 + n / 64, 128 + n % 64]
  else if n < 65536 then [224 + n / 4096, 128 + (n / 64) % 64, 128 + n % 64]
  else [240 + n / 262144, 128 + (n / 4096) % 64, 128 + (n / 64) % 64, 128 + n % 64]

/-- Python `s.encode()`: the UTF-8 bytes of a string. -/
def utf8Encode (s : String) : List Nat :=
  s.toList.flatMap utf8EncodeCharNat

/-- The value of a hex digit character (Python `int(c, 16)` per digit). -/
def hexVal (c : Char) : Nat :=
  if 48 ≤ c.toNat ∧ c.toNat ≤ 57 then c.toNat - 48
  else if 97 ≤ c.toNat ∧ c.toNat ≤ 102 then c.toNat - 87
  else if 65 ≤ c.toNat ∧ c.toNat ≤ 70 then c.toNat - 55
  else 0

/-- Python `int(s, 16)` on a hex character list. -/
def parseHex (cs : List Char) : Nat :=
  cs.foldl (fun acc c => 16 * acc + hexVal c) 0

/-- The function `category_to_color` from the Map Chart good panel: the first six hex
characters of the MD5 digest of the category string, read as three bytes,
with a fixed alpha of 160 appended. -/
def category_to_color (cat : String) : List Nat :=
  let hex_color := (md5HexDigest (utf8Encode cat)).take 6
  ([0, 2, 4] : List Nat).map (fun i => parseHex ((hex_color.drop i).take 2)) ++ [160]

/-! ## Map-mode colour assignment and midpoint -/

/-- Python `str(cell)`, as used by `str(cat)` in `category_to_color`. -/
def cellStr : Cell → String
  | Cell.num q => if q.den = 1 then toString q.num else toString q
  | Cell.str s => s
  | Cell.na => "nan"
  | Cell.colorVal c => toString c

/-- The colour list assigned per row: hash-derived colour applied to the
Category column when present, else the fixed fallback `[180, 0, 200, 140]`
repeated for every row. -/
def dfColors (df : DataFrame) : List (List Nat) :=
  match colIdx df "Category" with
  | some i => df.rows.map (fun r => category_to_color (cellStr (r.getD i Cell.na)))
  | none => List.replicate df.rows.length [180, 0, 200, 140]

/-- Pandas column assignment `df    [    name    ] = cells`: overwrites an existing
column of that name, otherwise appends a new column. -/
def setCol (df : DataFrame) (name : String) (cells : List Cell) : DataFrame :=
  match colIdx df name with
  | some i => { df with rows := df.rows.zipWith (fun r c => r.set i c) cells }
  | none => { header := df.header ++ [name],
              rows := df.rows.zipWith (fun r c => r ++ [c]) cells }

/-- The assignment of the Color column in the Map Chart good panel. -/
def assignColor (df : DataFrame) : DataFrame :=
  setCol df "Color" ((dfColors df).map Cell.colorVal)

/-- Pandas `Series.mean` over an all-numeric column. -/
def qmean (l : List Rat) : Rat :=
  l.sum / (l.length : Rat)

/-- The numeric value of a cell, if it is a number. -/
def cellNum : Cell → Option Rat
  | Cell.num q => some q
  | _ => none

/-- The numeric values of a named column, if the column exists and every
cell is numeric. -/
def colNums (df : DataFrame) (name : String) : Option (List Rat) :=
  (getCol df name).bind (fun cs => cs.mapM cellNum)

/-- The rendered pydeck scene: initial view state and marker colours. -/
structure MapRender where
  viewLat : Rat
  viewLon : Rat
  zoom : Nat
  pitch : Nat
  colors : List (List Nat)
deriving DecidableEq

/-- The body of the Map Chart good panel try-block: assign the Color
column, take the midpoint as the pair of column means, and build the deck
with the midpoint as initial view latitude and longitude, zoom 5, pitch 0.
Fails (raises) when a latitude or longitude cell is not numeric. -/
def mapRenderInner (df : DataFrame) : Except String MapRender :=
  let df2 := assignColor df
  match colNums df2 "Latitude", colNums df2 "Longitude" with
  | some lats, some lons =>
      Except.ok { viewLat := qmean lats, viewLon := qmean lons, zoom := 5, pitch := 0,
                  colors := dfColors df }
  | _, _ => Except.error "TypeError: could not compute the mean of a non-numeric column"

/-! ## Panels, modes, acquisition -/

/-- The outcome of one panel of the page: a rendered chart, an inline
error (`st.error` inside an except-branch), an inline warning
(`st.warning`), or an uncaught exception that escapes the panel. -/
inductive PanelResult where
  | chart (desc : String)
  | inlineError (msg : String)
  | warn (msg : String)
  | uncaught (msg : String)
deriving DecidableEq

/-- Warning shown by the good bar/pie/donut panels when columns are missing. -/
def reqMsg : String := "Columns \x27Category\x27 and \x27Value\x27 required."

/-- Warning shown by the good line panel when columns are missing. -/
def lineReqMsg : String := "Columns \x27Year\x27, \x27Category\x27, and \x27Value\x27 required."

/-- Warning shown by the bad map panel when columns are missing. -/
def mapMissingBadMsg : String := "Missing \x27Latitude\x27 and \x27Longitude\x27 columns for map."

/-- Warning shown by the good map panel when columns are missing. -/
def mapMissingGoodMsg : String :=
  "Missing \x27Latitude\x27 and \x27Longitude\x27 columns for the improved map."

/-- Warning shown when neither an upload nor the sample file is available. -/
def acquireWarnMsg : String :=
  "Please upload a CSV file or provide a \x27sample_data.csv\x27 in the app directory."

/-- A column is numeric (pandas `select_dtypes(include=..number..)`) when
every cell is a number or NaN. -/
def numericCell : Cell → Bool
  | Cell.num _ => true
  | Cell.na => true
  | _ => false

/-- Indices of the numeric columns of a dataframe. -/
def numericColIdxs (df : DataFrame) : List Nat :=
  (List.range df.header.length).filter
    (fun i => (df.rows.map (fun r => r.getD i Cell.na)).all numericCell)

/-- Bad bar panel: plots the first numeric column with no try-block;
`iloc[:, 0]` raises when there is no numeric column. -/
def barBadPanel (df : DataFrame) : PanelResult :=
  match numericColIdxs df with
  | [] => PanelResult.uncaught "IndexError: single positional indexer is out-of-bounds"
  | _ :: _ => PanelResult.chart "st.bar_chart of the first numeric column"

/-- Bad pie panel: same first-numeric-column access, no try-block. -/
def pieBadPanel (df : DataFrame) : PanelResult :=
  match numericColIdxs df with
  | [] => PanelResult.uncaught "IndexError: single positional indexer is out-of-bounds"
  | _ :: _ => PanelResult.chart "matplotlib pie of the first numeric column"

/-- Bad line panel: same first-numeric-column access, no try-block. -/
def lineBadPanel (df : DataFrame) : PanelResult :=
  match numericColIdxs df with
  | [] => PanelResult.uncaught "IndexError: single positional indexer is out-of-bounds"
  | _ :: _ => PanelResult.chart "st.line_chart of the first numeric column"

/-- Bad donut panel: `px.pie(df, names=..Category.., values=..Value..)`
with no try-block; raises when either column is missing. -/
def donutBadPanel (df : DataFrame) : PanelResult :=
  if hasCol df "Category" && hasCol df "Value" then
    PanelResult.chart "plotly pie of Value by Category"
  else
    PanelResult.uncaught "ValueError: \x27Category\x27 is not the name of a column in data_frame"

/-- Good bar panel: altair chart if Category and Value exist, else warning. -/
def barGoodPanel (df : DataFrame) : PanelResult :=
  if hasCol df "Category" && hasCol df "Value" then
    PanelResult.chart "altair bar of Value by Category"
  else PanelResult.warn reqMsg

/-- Good pie panel: plotly pie if Category and Value exist, else warning. -/
def pieGoodPanel (df : DataFrame) : PanelResult :=
  if hasCol df "Category" && hasCol df "Value" then
    PanelResult.chart "plotly pie of Value by Category, titled"
  else PanelResult.warn reqMsg

/-- Good donut panel: plotly pie with a 0.4 hole if Category and Value
exist, else warning. -/
def donutGoodPanel (df : DataFrame) : PanelResult :=
  if hasCol df "Category" && hasCol df "Value" then
    PanelResult.chart "plotly donut of Value by Category, hole 0.4"
  else PanelResult.warn reqMsg

/-- Good line panel: guarded by the column check, body in a try-block. -/
def lineGoodPanel (df : DataFrame) : PanelResult :=
  if hasCol df "Year" && hasCol df "Value" && hasCol df "Category" then
    PanelResult.chart "plotly line of Value by Year, coloured by Category"
  else PanelResult.warn lineReqMsg

/-- Bad map panel: `st.map` in a try-block; non-numeric coordinates are
caught and shown as a fixed inline error. -/
def mapBadPanel (df : DataFrame) : PanelResult :=
  if hasCol df "Latitude" && hasCol df "Longitude" then
    match colNums df "Latitude", colNums df "Longitude" with
    | some _, some _ => PanelResult.chart "st.map of Latitude and Longitude"
    | _, _ =>
        PanelResult.inlineError "Map could not be rendered. Check Latitude and Longitude values."
  else PanelResult.warn mapMissingBadMsg

/-- Good map panel: pydeck scene in a try-block; a raise inside is caught
and shown as an inline error naming the exception. -/
def mapGoodPanel (df : DataFrame) : PanelResult :=
  if hasCol df "Latitude" && hasCol df "Longitude" then
    match mapRenderInner df with
    | Except.ok _ => PanelResult.chart "pydeck scatterplot with view at the midpoint"
    | Except.error e => PanelResult.inlineError ("Error rendering map: " ++ e)
  else PanelResult.warn mapMissingGoodMsg

/-- The five entries of the chart-type selectbox. -/
inductive ChartTypeSel where
  | bar | pie | line | map | donut
deriving DecidableEq

/-- Whether a panel outcome is an uncaught exception. -/
def isUncaught : PanelResult → Bool
  | PanelResult.uncaught _ => true
  | _ => false

/-- Run the panels of a mode in script order; an uncaught exception stops
the script, so later panels do not render. -/
def runPanels (ps : List (DataFrame → PanelResult)) (df : DataFrame) : List PanelResult :=
  match ps with
  | [] => []
  | p :: rest =>
      let r := p df
      if isUncaught r then [r] else r :: runPanels rest df

/-- The bad panel then the good panel of each mode, in script order. -/
def modePanels : ChartTypeSel → List (DataFrame → PanelResult)
  | ChartTypeSel.bar => [barBadPanel, barGoodPanel]
  | ChartTypeSel.pie => [pieBadPanel, pieGoodPanel]
  | ChartTypeSel.line => [lineBadPanel, lineGoodPanel]
  | ChartTypeSel.map => [mapBadPanel, mapGoodPanel]
  | ChartTypeSel.donut => [donutBadPanel, donutGoodPanel]

/-- The panels rendered for one selected mode over the loaded dataset. -/
def renderMode (mode : ChartTypeSel) (df : DataFrame) : List PanelResult :=
  runPanels (modePanels mode) df

/-- Where the dataset came from. -/
inductive DataSource where
  | uploadedFile | sampleFile
deriving DecidableEq

/-- Outcome of dataset acquisition. -/
inductive AcquireResult where
  | loaded (src : DataSource) (df : DataFrame)
  | halted (warning : String)
deriving DecidableEq

/-- Dataset acquisition: the upload wins; otherwise the bundled
`sample_data.csv` if it exists; otherwise warn and `st.stop()`. -/
def acquireData (upload samp : Option DataFrame) : AcquireResult :=
  match upload with
  | some df => AcquireResult.loaded DataSource.uploadedFile df
  | none =>
      match samp with
      | some df => AcquireResult.loaded DataSource.sampleFile df
      | none => AcquireResult.halted acquireWarnMsg

/-- What the page shows: an optional warning, whether the chart-type
selector is reached, and the panels rendered. -/
structure PageRender where
  warning : Option String
  modeSelector : Bool
  panels : List PanelResult
deriving DecidableEq

/-- The whole page: acquire the dataset, then either render the selected
mode or halt after the warning with no chart UI. -/
def renderPage (upload samp : Option DataFrame) (mode : ChartTypeSel) : PageRender :=
  match acquireData upload samp with
  | AcquireResult.loaded _ df =>
      { warning := none, modeSelector := true, panels := renderMode mode df }
  | AcquireResult.halted w =>
      { warning := some w, modeSelector := false, panels := [] }

/-! ## The good line-chart transform

The panel works on the Year, Value and Category columns of the dataframe;
a row of that projection is a `LineRow`. -/

/-- One row of the Year/Value/Category projection of the dataframe. -/
structure LineRow where
  category : String
  year : Cell
  value : Cell
deriving DecidableEq

/-- Whether a character is a decimal digit. -/
def isDigitChar (c : Char) : Bool :=
  48 ≤ c.toNat && c.toNat ≤ 57

/-- The value of a decimal digit character. -/
def digitVal (c : Char) : Nat :=
  c.toNat - 48

/-- Parse a (possibly negated) decimal integer string, as
`pd.to_numeric` does on year-like entries; anything else fails. -/
def parseIntString (s : String) : Option Int :=
  match s.toList with
  | [] => none
  | '-' :: ds =>
      if !ds.isEmpty && ds.all isDigitChar then
        some (-(ds.foldl (fun a c => 10 * a + digitVal c) 0 : Nat))
      else none
  | ds =>
      if ds.all isDigitChar then
        some ((ds.foldl (fun a c => 10 * a + digitVal c) 0 : Nat) : Int)
      else none

/-- Pandas `pd.to_numeric(cell, errors=..coerce..)`: numbers stay, parseable
strings become numbers, everything else becomes NaN. -/
def toNumericCell : Cell → Cell
  | Cell.num q => Cell.num q
  | Cell.str s =>
      match parseIntString s with
      | some n => Cell.num (n : Rat)
      | none => Cell.na
  | Cell.na => Cell.na
  | Cell.colorVal _ => Cell.na

/-- Whether a cell is missing (NaN), as `dropna` sees it. -/
def isNaCell : Cell → Bool
  | Cell.na => true
  | _ => false

/-- Truncation toward zero, as NumPy `astype(int)` does on floats. -/
def truncToInt (q : Rat) : Int :=
  if 0 ≤ q then q.floor else q.ceil

/-- NumPy `astype(int)` on one cell of the coerced Year column. -/
def astypeIntCell : Cell → Cell
  | Cell.num q => Cell.num ((truncToInt q : Int) : Rat)
  | c => c

/-- Sort key of a cell for `sort_values`: numbers order by value; the
first component separates the kinds. -/
def cellSortKey : Cell → Nat × Rat
  | Cell.num q => (0, q)
  | Cell.str _ => (1, 0)
  | Cell.na => (2, 0)
  | Cell.colorVal _ => (3, 0)

/-- The comparison used by `sort_values(by=[..Category.., ..Year..])`:
lexicographic on the category string, then on the year. -/
def rowLe (a b : LineRow) : Bool :=
  decide (toLex (a.category, toLex (cellSortKey a.year)) ≤
    toLex (b.category, toLex (cellSortKey b.year)))

/-- The good line panel transform: coerce Year to numeric with
unparseable entries becoming NaN, drop rows missing Year or Value, cast
Year to int, and sort by Category then Year. -/
def lineGoodTransform (rs : List LineRow) : List LineRow :=
  let coerced := rs.map (fun r => { r with year := toNumericCell r.year })
  let kept := coerced.filter (fun r => !(isNaCell r.year) && !(isNaCell r.value))
  let asInt := kept.map (fun r => { r with year := astypeIntCell r.year })
  asInt.mergeSort rowLe

/-! ## Indentation structure of the Map Chart section

One entry per logical line of lines 125-199 of the script, recording the
indentation column and whether the line is a compound-statement header
that opens a suite (ends in a colon). A multi-line bracketed call is one
logical line at the indent of its first physical line. -/

/-- A logical source line: indentation and whether it opens a suite. -/
structure SrcLine where
  indent : Nat
  opensBlock : Bool
deriving DecidableEq

/-- The logical lines of the Map Chart section (script lines 125-199). -/
def mapChartSection : List SrcLine :=
  [⟨0, true⟩,   -- 125 elif chart_type == "Map Chart":
   ⟨4, false⟩,  -- 126 st.header
   ⟨4, false⟩,  -- 127 col1, col2 = st.columns(2)
   ⟨4, true⟩,   -- 128 with col1:
   ⟨8, false⟩,  -- 129 st.subheader
   ⟨8, true⟩,   -- 130 if issubset:
   ⟨12, true⟩,  -- 131 try:
   ⟨16, false⟩, -- 132 renamed_df = ...
   ⟨16, false⟩, -- 133 st.map(...)
   ⟨12, true⟩,  -- 134 except Exception as e:
   ⟨16, false⟩, -- 135 st.error(...)
   ⟨8, true⟩,   -- 136 else:
   ⟨12, false⟩, -- 137 st.warning(...)
   ⟨8, false⟩,  -- 139 show_explanations([...])
   ⟨4, true⟩,   -- 147 with col2:
   ⟨4, false⟩,  -- 148 st.subheader  (not indented under the with)
   ⟨4, true⟩,   -- 149 if issubset:
   ⟨8, true⟩,   -- 150 try:
   ⟨12, false⟩, -- 152 import pydeck as pdk
   ⟨12, false⟩, -- 153 pdk.settings.mapbox_api_key = ...
   ⟨12, false⟩, -- 155 import hashlib
   ⟨12, true⟩,  -- 157 def category_to_color(cat):
   ⟨16, false⟩, -- 159 hex_color = ...
   ⟨16, false⟩, -- 160 return ...
   ⟨12, true⟩,  -- 162 if Category in df.columns:
   ⟨16, false⟩, -- 163 df Color assignment (hash colours)
   ⟨12, true⟩,  -- 164 else:
   ⟨16, false⟩, -- 165 df Color assignment (fallback)
   ⟨12, false⟩, -- 167 midpoint = ...
   ⟨12, false⟩, -- 169 layer = pdk.Layer(...)
   ⟨12, false⟩, -- 179 view_state = pdk.ViewState(...)
   ⟨12, false⟩, -- 186 tooltip = ...
   ⟨12, false⟩, -- 188 r = pdk.Deck(...)
   ⟨12, false⟩, -- 195 st.pydeck_chart(r)
   ⟨8, true⟩,   -- 196 except Exception as e:
   ⟨12, false⟩, -- 197 st.error(...)
   ⟨4, true⟩,   -- 198 else:
   ⟨8, false⟩]  -- 199 st.warning(...)

/-- Python requires the logical line after a suite-opening header to be
indented strictly deeper; a header with no following line has no body.
This checks that rule along a sequence of logical lines. -/
def suiteBodiesIndented : List SrcLine → Bool
  | [] => true
  | [l] => !l.opensBlock
  | l1 :: l2 :: rest =>
      (!l1.opensBlock || decide (l1.indent < l2.indent)) &&
        suiteBodiesIndented (l2 :: rest)

/-- A dataset that already has a Color column. -/
def dfColorClash : DataFrame :=
  { header := ["Category", "Color"], rows := [[Cell.str "A", Cell.num 0]] }

/-- A well-formed one-row Category/Value dataset without a Color column. -/
def dfCatVal : DataFrame :=
  { header := ["Category", "Value"], rows := [[Cell.str "B", Cell.num 2]] }

/-- A well-formed two-row dataset with numeric coordinates. -/
def dfLatLon : DataFrame :=
  { header := ["Latitude", "Longitude"],
    rows := [[Cell.num 1, Cell.num 3], [Cell.num 2, Cell.num 5]] }

/-- Three line rows, the first with a non-numeric Year. -/
def lineRowsW : List LineRow :=
  [⟨"B", Cell.str "x", Cell.num 1⟩,
   ⟨"A", Cell.num 2001, Cell.num 2⟩,
   ⟨"A", Cell.num 2000, Cell.num 3⟩]

/-! ## Helper lemmas -/

/-- A column name absent from the header has no index. -/
theorem colIdx_eq_none (df : DataFrame) (name : String)
    (h : hasCol df name = false) : colIdx df name = none := by
  rw [colIdx, List.findIdx?_eq_none_iff]
  intro x hx
  simp only [decide_eq_false_iff_not]
  intro hxe
  subst hxe
  rw [hasCol, decide_eq_false_iff_not] at h
  exact h hx

/-- There is one colour per row. -/
theorem dfColors_length (df : DataFrame) : (dfColors df).length = df.rows.length := by
  unfold dfColors; split <;> simp

/-- A zipWith whose function ignores its second argument pointwise on the
first list is a map, when the second list is long enough. -/
theorem zipWith_eq_map_of_agree {α β γ : Type} (f : α → β → γ) (g : α → γ) :
    ∀ (as : List α) (bs : List β), as.length ≤ bs.length →
      (∀ a ∈ as, ∀ b, f a b = g a) → List.zipWith f as bs = as.map g := by
  intro as
  induction as with
  | nil => intro bs _ _; simp
  | cons a as ih =>
      intro bs hlen hfg
      cases bs with
      | nil => simp at hlen
      | cons b bs =>
          simp only [List.zipWith_cons_cons, List.map_cons]
          refine congrArg₂ _ (hfg a (by simp) b) ?_
          exact ih bs (by simpa using hlen) (fun x hx c => hfg x (by simp [hx]) c)

/-- Writing one column leaves every other column unchanged, whether the
written column already exists (cells overwritten at its index) or is
appended. -/
theorem getCol_setCol_ne (df : DataFrame) (name other : String) (cells : List Cell)
    (hwf : df.Wf) (hne : other ≠ name) (hlen : df.rows.length ≤ cells.length) :
    getCol (setCol df name cells) other = getCol df other := by
  unfold setCol
  cases hidx : colIdx df name with
  | some i =>
      rw [colIdx, List.findIdx?_eq_some_iff_getElem] at hidx
      obtain ⟨hilt, hpi, -⟩ := hidx
      simp only [decide_eq_true_eq] at hpi
      unfold getCol colIdx
      simp only []
      cases hj : df.header.findIdx? (fun x => decide (x = other)) with
      | none => rfl
      | some j =>
          have hji : i ≠ j := by
            rw [List.findIdx?_eq_some_iff_getElem] at hj
            obtain ⟨hjlt, hpj, -⟩ := hj
            simp only [decide_eq_true_eq] at hpj
            intro hcon
            subst hcon
            exact hne (hpj.symm.trans hpi)
          simp only [Option.map_some']
          refine congrArg _ ?_
          rw [List.map_zipWith]
          exact zipWith_eq_map_of_agree _ _ _ _ hlen (fun r hr c => by
            simp [List.getD_eq_getElem?_getD, List.getElem?_set_ne hji])
  | none =>
      have hpn : decide (name = other) = false := by
        simp only [decide_eq_false_iff_not]
        exact fun hcon => hne hcon.symm
      unfold getCol colIdx
      cases hj : df.header.findIdx? (fun x => decide (x = other)) with
      | none => simp [List.findIdx?_append, hj, hpn]
      | some j =>
          have hjlt : j < df.header.length := by
            rw [List.findIdx?_eq_some_iff_getElem] at hj
            exact hj.1
          simp only [List.findIdx?_append, hj, Option.or_some, Option.map_some']
          refine congrArg _ ?_
          rw [List.map_zipWith]
          exact zipWith_eq_map_of_agree _ _ _ _ hlen (fun r hr c => by
            have hr' : r.length = df.header.length := hwf r hr
            simp [List.getD_eq_getElem?_getD, List.getElem?_append_left (hr' ▸ hjlt)])

/-- A hex digit round-trips through its character. -/
theorem hexVal_hexDigitChar : ∀ d : Nat, d < 16 → hexVal (hexDigitChar d) = d := by
  decide

/-- A byte round-trips through its two hex characters. -/
theorem parseHex_hex_pair (b : Nat) (h : b < 256) :
    parseHex [hexDigitChar (b / 16), hexDigitChar (b % 16)] = b := by
  have h1 : b / 16 < 16 := by omega
  have h2 : b % 16 < 16 := Nat.mod_lt _ (by norm_num)
  simp [parseHex, hexVal_hexDigitChar _ h1, hexVal_hexDigitChar _ h2]
  omega

/-- Coercion to numeric yields a number or NaN, never anything else. -/
theorem toNumericCell_num_or_na (c : Cell) :
    (∃ q : Rat, toNumericCell c = Cell.num q) ∨ toNumericCell c = Cell.na := by
  cases c with
  | num q => exact Or.inl ⟨q, rfl⟩
  | str s =>
      cases hp : parseIntString s with
      | some n => exact Or.inl ⟨(n : Rat), by simp [toNumericCell, hp]⟩
      | none => exact Or.inr (by simp [toNumericCell, hp])
  | na => exact Or.inr rfl
  | colorVal c => exact Or.inr rfl

/-! ## Claims -/

/-- C1: the Map Chart good panel's `with col2:` header (script line 147)
is claimed to be followed by an indented body so that the script parses.
The recorded indentation of the section refutes this: the checker fails,
and the entries for lines 147 and 148 sit at the same indent 4 with the
former opening a suite, so Python rejects the module before anything
renders. -/
theorem mapChartSection_with_col2_not_indented :
    suiteBodiesIndented mapChartSection = false ∧
    mapChartSection.getD 14 ⟨0, false⟩ = ⟨4, true⟩ ∧
    mapChartSection.getD 15 ⟨0, false⟩ = ⟨4, false⟩ := by
  decide

/-- C2 counterexample: with a dataset lacking the Category column, the
bad donut panel's error is not caught: the mode renders a single uncaught
exception, no inline error is shown, and the good donut panel never
renders; likewise the bad bar panel with no numeric column. This refutes
the claim that such errors are caught per-panel with the other panels
still rendering. -/
theorem badPanels_error_not_caught_counterexample :
    renderMode ChartTypeSel.donut { header := ["X"], rows := [[Cell.num 1]] } =
      [PanelResult.uncaught
        "ValueError: \x27Category\x27 is not the name of a column in data_frame"] ∧
    renderMode ChartTypeSel.bar { header := ["Name"], rows := [[Cell.str "a"]] } =
      [PanelResult.uncaught "IndexError: single positional indexer is out-of-bounds"] := by
  decide

/-- C2 amended: only the panels whose bodies sit in a try-block catch
errors and show them inline: the good line panel and both map panels
never produce an uncaught exception, and in map mode both panels always
render. The bad bar/pie/line/donut panels have no handler (see the
counterexample). -/
theorem tryGuardedPanels_catch_errors (df : DataFrame) :
    isUncaught (lineGoodPanel df) = false ∧
    isUncaught (mapBadPanel df) = false ∧
    isUncaught (mapGoodPanel df) = false ∧
    (renderMode ChartTypeSel.map df).length = 2 := by
  have hl : isUncaught (lineGoodPanel df) = false := by
    unfold lineGoodPanel; split <;> rfl
  have hb : isUncaught (mapBadPanel df) = false := by
    unfold mapBadPanel; split
    · split <;> rfl
    · rfl
  have hg : isUncaught (mapGoodPanel df) = false := by
    unfold mapGoodPanel; split
    · split <;> rfl
    · rfl
  refine ⟨hl, hb, hg, ?_⟩
  simp [renderMode, modePanels, runPanels, hb, hg]

/-- C5: `category_to_color` is a deterministic function of the category
string, so equal category strings receive equal RGBA lists on any two
renders. -/
theorem category_to_color_deterministic (c₁ c₂ : String) (h : c₁ = c₂) :
    category_to_color c₁ = category_to_color c₂ := by
  rw [h]

/-- C5 witness at the category string A. -/
theorem category_to_color_deterministic_witness :
    category_to_color "A" = category_to_color "A" :=
  category_to_color_deterministic "A" "A" rfl

/-- C6: when Category or Value is missing, the good bar, pie and donut
panels each show the required-columns warning and render no chart. -/
theorem goodPanels_warn_without_columns (df : DataFrame)
    (h : ¬(hasCol df "Category" = true ∧ hasCol df "Value" = true)) :
    barGoodPanel df = PanelResult.warn reqMsg ∧
    pieGoodPanel df = PanelResult.warn reqMsg ∧
    donutGoodPanel df = PanelResult.warn reqMsg := by
  have hb : (hasCol df "Category" && hasCol df "Value") = false := by
    cases hc : hasCol df "Category" <;> cases hv : hasCol df "Value" <;> simp_all
  simp [barGoodPanel, pieGoodPanel, donutGoodPanel, hb]

/-- C6 witness: a dataset with only an X column. -/
theorem goodPanels_warn_without_columns_witness :
    barGoodPanel { header := ["X"], rows := [[Cell.num 1]] } = PanelResult.warn reqMsg ∧
    pieGoodPanel { header := ["X"], rows := [[Cell.num 1]] } = PanelResult.warn reqMsg ∧
    donutGoodPanel { header := ["X"], rows := [[Cell.num 1]] } = PanelResult.warn reqMsg :=
  goodPanels_warn_without_columns { header := ["X"], rows := [[Cell.num 1]] } (by decide)

/-- C7: an upload is loaded when present; otherwise the bundled sample is
loaded when it exists; otherwise the page warns and halts, rendering no
mode selector and no panels. -/
theorem dataset_acquisition_spec (upload samp : Option DataFrame) (mode : ChartTypeSel) :
    (∀ df, upload = some df →
      acquireData upload samp = AcquireResult.loaded DataSource.uploadedFile df) ∧
    (upload = none → ∀ df, samp = some df →
      acquireData upload samp = AcquireResult.loaded DataSource.sampleFile df) ∧
    (upload = none → samp = none →
      acquireData upload samp = AcquireResult.halted acquireWarnMsg ∧
      (renderPage upload samp mode).warning = some acquireWarnMsg ∧
      (renderPage upload samp mode).modeSelector = false ∧
      (renderPage upload samp mode).panels = []) := by
  refine ⟨?_, ?_, ?_⟩
  · intro df hdf; subst hdf; rfl
  · intro hu df hs; subst hu; subst hs; rfl
  · intro hu hs; subst hu; subst hs
    exact ⟨rfl, rfl, rfl, rfl⟩

/-- C7 witness: with no upload and no sample file the page halts with the
warning and shows no chart UI. -/
theorem dataset_acquisition_spec_witness :
    acquireData none none = AcquireResult.halted acquireWarnMsg ∧
    (renderPage none none ChartTypeSel.bar).modeSelector = false ∧
    (renderPage none none ChartTypeSel.bar).panels = [] := by
  have h := (dataset_acquisition_spec none none ChartTypeSel.bar).2.2 rfl rfl
  exact ⟨h.1, h.2.2.1, h.2.2.2⟩

/-- C9: without a Category column, every row receives the fixed fallback
colour `[180, 0, 200, 140]`. -/
theorem dfColors_fallback (df : DataFrame) (h : hasCol df "Category" = false) :
    dfColors df = List.replicate df.rows.length [180, 0, 200, 140] := by
  rw [dfColors, colIdx_eq_none df "Category" h]

/-- C9 witness: a two-row dataset with only an X column. -/
theorem dfColors_fallback_witness :
    dfColors { header := ["X"], rows := [[Cell.num 1], [Cell.num 2]] } =
      List.replicate 2 [180, 0, 200, 140] :=
  dfColors_fallback { header := ["X"], rows := [[Cell.num 1], [Cell.num 2]] } (by decide)

/-- C10 counterexample: on a dataset that already has a Color column, the
Color assignment of the map good panel overwrites that pre-existing
column, so the claim that all pre-existing columns and values are
unchanged for every input dataset is false. -/
theorem assignColor_overwrites_existing_color_column :
    getCol dfColorClash "Color" = some [Cell.num 0] ∧
    getCol (assignColor dfColorClash) "Color" ≠ some [Cell.num 0] := by
  decide

/-- C10 amended: on any well-formed dataset without a pre-existing Color
column, the Color assignment only appends a Color column: the header
gains Color at the end, every pre-existing column keeps its values, the
row count is unchanged, and each row is its old self followed by the new
colour cell. -/
theorem assignColor_only_appends (df : DataFrame) (hwf : df.Wf)
    (h : hasCol df "Color" = false) :
    (assignColor df).header = df.header ++ ["Color"] ∧
    (∀ name ∈ df.header, getCol (assignColor df) name = getCol df name) ∧
    (assignColor df).rows.length = df.rows.length ∧
    (assignColor df).rows.map (fun r => r.take df.header.length) = df.rows := by
  have hnone := colIdx_eq_none df "Color" h
  have hlen : df.rows.length ≤ ((dfColors df).map Cell.colorVal).length := by
    simp [dfColors_length]
  refine ⟨?_, ?_, ?_, ?_⟩
  · simp [assignColor, setCol, hnone]
  · intro name hmem
    have hne : name ≠ "Color" := by
      intro hcon
      subst hcon
      rw [hasCol, decide_eq_false_iff_not] at h
      exact h hmem
    exact getCol_setCol_ne df "Color" name _ hwf hne hlen
  · simp [assignColor, setCol, hnone, List.length_zipWith, dfColors_length]
  · simp only [assignColor, setCol, hnone, List.map_zipWith]
    rw [zipWith_eq_map_of_agree _ (fun r => r) _ _ hlen (fun r hr c => by
      have hr' : r.length = df.header.length := hwf r hr
      exact List.take_left' hr')]
    exact List.map_id df.rows

/-- C10 amended witness at `dfCatVal`. -/
theorem assignColor_only_appends_witness :
    (assignColor dfCatVal).header = dfCatVal.header ++ ["Color"] ∧
    (∀ name ∈ dfCatVal.header,
      getCol (assignColor dfCatVal) name = getCol dfCatVal name) ∧
    (assignColor dfCatVal).rows.length = dfCatVal.rows.length ∧
    (assignColor dfCatVal).rows.map (fun r => r.take dfCatVal.header.length) =
      dfCatVal.rows :=
  assignColor_only_appends dfCatVal (by decide) (by decide)

/-- C8: when the latitude and longitude columns exist and are numeric,
the map good panel succeeds and its initial view state's latitude and
longitude are exactly the midpoint: the mean of the Latitude column and
the mean of the Longitude column, where the mean is the sum divided by
the number of rows. -/
theorem mapView_at_column_means (df : DataFrame) (lats lons : List Rat)
    (hwf : df.Wf)
    (hla : colNums df "Latitude" = some lats)
    (hlo : colNums df "Longitude" = some lons) :
    mapRenderInner df =
      Except.ok { viewLat := qmean lats, viewLon := qmean lons, zoom := 5, pitch := 0,
                  colors := dfColors df } ∧
    qmean lats = lats.sum / (lats.length : Rat) ∧
    qmean lons = lons.sum / (lons.length : Rat) := by
  have hlen : df.rows.length ≤ ((dfColors df).map Cell.colorVal).length := by
    simp [dfColors_length]
  have gpl : getCol (assignColor df) "Latitude" = getCol df "Latitude" := by
    unfold assignColor
    exact getCol_setCol_ne df "Color" "Latitude" _ hwf (by decide) hlen
  have gpo : getCol (assignColor df) "Longitude" = getCol df "Longitude" := by
    unfold assignColor
    exact getCol_setCol_ne df "Color" "Longitude" _ hwf (by decide) hlen
  have hpl : colNums (assignColor df) "Latitude" = some lats := by
    unfold colNums at hla ⊢
    rw [gpl]
    exact hla
  have hpo : colNums (assignColor df) "Longitude" = some lons := by
    unfold colNums at hlo ⊢
    rw [gpo]
    exact hlo
  refine ⟨?_, rfl, rfl⟩
  simp only [mapRenderInner, hpl, hpo]

/-- C8 witness: latitudes 1, 2 and longitudes 3, 5. -/
theorem mapView_at_column_means_witness :
    mapRenderInner dfLatLon =
      Except.ok { viewLat := qmean [1, 2], viewLon := qmean [3, 5], zoom := 5, pitch := 0,
                  colors := dfColors dfLatLon } ∧
    qmean [1, 2] = ([1, 2] : List Rat).sum / (([1, 2] : List Rat).length : Rat) ∧
    qmean [3, 5] = ([3, 5] : List Rat).sum / (([3, 5] : List Rat).length : Rat) :=
  mapView_at_column_means dfLatLon [1, 2] [3, 5] (by decide) rfl rfl

/-- C4: for every category string, `category_to_color` returns exactly
the first three bytes of the MD5 digest of the string, as RGB, followed
by the fixed alpha component 160, as a 4-element list. -/
theorem category_to_color_is_hash_bytes (cat : String) :
    category_to_color cat = (md5Bytes (utf8Encode cat)).take 3 ++ [160] ∧
    (category_to_color cat).length = 4 := by
  rcases hq : md5Core (utf8Encode cat) with ⟨a, b, c, d⟩
  have hb : md5Bytes (utf8Encode cat) =
      [a % 256, (a >>> 8) % 256, (a >>> 16) % 256, (a >>> 24) % 256,
       b % 256, (b >>> 8) % 256, (b >>> 16) % 256, (b >>> 24) % 256,
       c % 256, (c >>> 8) % 256, (c >>> 16) % 256, (c >>> 24) % 256,
       d % 256, (d >>> 8) % 256, (d >>> 16) % 256, (d >>> 24) % 256] := by
    simp [md5Bytes, hq, wordLEBytes]
  have h0 : a % 256 < 256 := Nat.mod_lt _ (by norm_num)
  have h1 : (a >>> 8) % 256 < 256 := Nat.mod_lt _ (by norm_num)
  have h2 : (a >>> 16) % 256 < 256 := Nat.mod_lt _ (by norm_num)
  constructor
  · simp only [category_to_color, md5HexDigest]
    rw [hb]
    simp only [List.flatMap_cons, List.flatMap_nil, byteHexChars, List.cons_append,
      List.nil_append, List.append_nil, List.map_cons, List.map_nil]
    norm_num [List.take, List.drop]
    refine ⟨?_, ?_, ?_⟩
    · have hp := parseHex_hex_pair _ h0
      rwa [Nat.mod_mod_of_dvd _ (by norm_num)] at hp
    · have hp := parseHex_hex_pair _ h1
      rwa [Nat.mod_mod_of_dvd _ (by norm_num)] at hp
    · have hp := parseHex_hex_pair _ h2
      rwa [Nat.mod_mod_of_dvd _ (by norm_num)] at hp
  · simp [category_to_color]

/-- C3: on a dataset whose Year column has some non-numeric entries, the
good line chart is built from rows obtained by coercing Year to numeric
(unparseable entries becoming missing), dropping rows missing Year or
Value, and sorting by the pair (Category, Year): every surviving row has
a numeric Year and a present Value, the result is sorted by Category
then Year, and it is a permutation of exactly the kept coerced rows. -/
theorem lineGoodTransform_drops_then_sorts (rs : List LineRow)
    (hsome : ∃ r ∈ rs, toNumericCell r.year = Cell.na) :
    (∀ r ∈ lineGoodTransform rs,
        (∃ q : Rat, r.year = Cell.num q) ∧ isNaCell r.value = false) ∧
    List.Pairwise (fun a b => rowLe a b = true) (lineGoodTransform rs) ∧
    (lineGoodTransform rs).Perm
      (((rs.map (fun r => { r with year := toNumericCell r.year })).filter
          (fun r => !(isNaCell r.year) && !(isNaCell r.value))).map
        (fun r => { r with year := astypeIntCell r.year })) := by
  refine ⟨?_, ?_, ?_⟩
  · intro r hr
    simp only [lineGoodTransform, List.mem_mergeSort] at hr
    obtain ⟨r', hr', rfl⟩ := List.mem_map.mp hr
    obtain ⟨hc, hk⟩ := List.mem_filter.mp hr'
    obtain ⟨r0, hr0, rfl⟩ := List.mem_map.mp hc
    simp only [Bool.and_eq_true, Bool.not_eq_true'] at hk
    obtain ⟨hky, hkv⟩ := hk
    constructor
    · rcases toNumericCell_num_or_na r0.year with ⟨q, hq⟩ | hq
      · exact ⟨truncToInt q, by simp [astypeIntCell, hq]⟩
      · simp [hq, isNaCell] at hky
    · simpa using hkv
  · have htrans : ∀ (a b c : LineRow),
        rowLe a b = true → rowLe b c = true → rowLe a c = true := by
      intro a b c hab hbc
      simp only [rowLe, decide_eq_true_eq] at hab hbc ⊢
      exact le_trans hab hbc
    have htotal : ∀ (a b : LineRow), (rowLe a b || rowLe b a) = true := by
      intro a b
      simp only [rowLe, Bool.or_eq_true, decide_eq_true_eq]
      exact le_total _ _
    exact List.sorted_mergeSort htrans htotal _
  · simp only [lineGoodTransform]
    exact List.mergeSort_perm _ _

/-- C3 witness at `lineRowsW`. -/
theorem lineGoodTransform_drops_then_sorts_witness :
    (∀ r ∈ lineGoodTransform lineRowsW,
        (∃ q : Rat, r.year = Cell.num q) ∧ isNaCell r.value = false) ∧
    List.Pairwise (fun a b => rowLe a b = true) (lineGoodTransform lineRowsW) ∧
    (lineGoodTransform lineRowsW).Perm
      (((lineRowsW.map (fun r => { r with year := toNumericCell r.year })).filter
          (fun r => !(isNaCell r.year) && !(isNaCell r.value))).map
        (fun r => { r with year := astypeIntCell r.year })) :=
  lineGoodTransform_drops_then_sorts lineRowsW (by decide)
